import Mathlib

/-!
# Verification of the prompt-to-animation pipeline (`src/animation_generator.py`)

A shallow embedding of the pure logic of `animation_generator.py`:

* prompt-template placeholder substitution (`_render_prompt_template`, Python
  `str.replace`) and the plan/code prompt construction
  (`AnimationPlanner.generate_plan`, `ManimCodeGenerator.generate_code`);
* markdown-fence cleanup (`_clean_code`, built on `re.sub` for the two fixed
  patterns and Python `str.strip`);
* scene-class-name rewriting (`_ensure_class_name`, `re.sub` for the fixed
  pattern `class\s+\w+\(Scene\)`);
* the timestamp-derived identifier (`datetime.now().strftime`);
* prompt-config loading and the path-containment check
  (`_load_prompt_config`, `_get_prompt_template`, `pathlib` resolution);
* artifact discovery after rendering (`AnimationRenderer.render`,
  `_find_latest_video`);
* the top-level driver (`generate_animation`).

Text is modeled as `List Char`.  Python character classes (`\s`, `\w`,
`str.strip`'s whitespace set) are modeled over their ASCII behavior, which is
the behavior exercised by the repository's templates and generated code.
Filesystems are modeled as explicit lookup functions, so that the theorems can
quantify over every filesystem state.
-/

namespace PromptManim

/-- The ASCII whitespace characters recognized by Python's `str.strip` and by
the regex class `\s`. -/
def isSpace (c : Char) : Bool :=
  c = ' ' || c = '\t' || c = '\n' || c = '\r' || c = '\x0b' || c = '\x0c'

/-- Python's `pat in s` substring test: `pat` occurs contiguously in `l`. -/
def hasSub (pat : List Char) : List Char → Bool
  | [] => pat.isEmpty
  | c :: cs => pat.isPrefixOf (c :: cs) || hasSub pat cs

/-- `List.isPrefixOf` is the existence of a completing suffix. -/
theorem pre_iff (l₁ l₂ : List Char) :
    l₁.isPrefixOf l₂ = true ↔ ∃ t, l₂ = l₁ ++ t := by
  induction l₁ generalizing l₂ with
  | nil => simp [List.isPrefixOf]
  | cons a as ih =>
    cases l₂ with
    | nil => simp [List.isPrefixOf]
    | cons b bs =>
      simp only [List.isPrefixOf, Bool.and_eq_true, beq_iff_eq, ih,
        List.cons_append, List.cons.injEq]
      constructor
      · rintro ⟨rfl, t, rfl⟩; exact ⟨t, rfl, rfl⟩
      · rintro ⟨t, rfl, rfl⟩; exact ⟨rfl, t, rfl⟩

/-- A list is a prefix of itself extended by anything. -/
theorem pre_append (l t : List Char) : l.isPrefixOf (l ++ t) = true :=
  (pre_iff l (l ++ t)).mpr ⟨t, rfl⟩

/-- The substring test is the existence of a decomposition. -/
theorem hasSub_iff (pat l : List Char) :
    hasSub pat l = true ↔ ∃ s t, l = s ++ pat ++ t := by
  induction l with
  | nil =>
    simp only [hasSub, List.isEmpty_iff]
    constructor
    · rintro rfl; exact ⟨[], [], rfl⟩
    · rintro ⟨s, t, h⟩
      rcases List.append_eq_nil.mp h.symm with ⟨h1, h2⟩
      exact (List.append_eq_nil.mp h1).2
  | cons c cs ih =>
    simp only [hasSub, Bool.or_eq_true, pre_iff, ih]
    constructor
    · rintro (⟨t, h⟩ | ⟨s, t, h⟩)
      · exact ⟨[], t, by simpa using h⟩
      · exact ⟨c :: s, t, by simp [h]⟩
    · rintro ⟨s, t, h⟩
      cases s with
      | nil => exact Or.inl ⟨t, by simpa using h⟩
      | cons d ds =>
        simp only [List.cons_append, List.cons.injEq] at h
        exact Or.inr ⟨ds, t, by simp [h.2]⟩

/-- A pattern occurs in any list that appends it on the right. -/
theorem hasSub_append_self (s pat : List Char) : hasSub pat (s ++ pat) = true :=
  (hasSub_iff pat (s ++ pat)).mpr ⟨s, [], by simp⟩

/-- Occurrence is preserved by prepending a character. -/
theorem hasSub_cons (pat : List Char) (c : Char) (cs : List Char)
    (h : hasSub pat cs = true) : hasSub pat (c :: cs) = true := by
  simp [hasSub, h]

/-- Analysis of an occurrence in a cons cell. -/
theorem hasSub_cons_elim {pat : List Char} {c : Char} {cs : List Char}
    (h : hasSub pat (c :: cs) = true) :
    pat.isPrefixOf (c :: cs) = true ∨ hasSub pat cs = true := by
  simpa [hasSub, Bool.or_eq_true] using h

/-- A pattern that occurs nowhere in `c :: cs` occurs nowhere in `cs` and is
not a prefix. -/
theorem hasSub_cons_false {pat : List Char} {c : Char} {cs : List Char}
    (h : hasSub pat (c :: cs) = false) :
    pat.isPrefixOf (c :: cs) = false ∧ hasSub pat cs = false := by
  simpa [hasSub, Bool.or_eq_false_iff] using h

/-!
## Placeholder substitution (`_render_prompt_template`)

```python
def _render_prompt_template(template: str, values: dict[str, str]) -> str:
    rendered = template
    for key, value in values.items():
        rendered = rendered.replace(f"{{{key}}}", value)
    return rendered
```

`pyReplace` is Python's `str.replace(old, new)` for nonempty `old`: scan left
to right, replace each non-overlapping occurrence, continue after the replaced
text.  (The pipeline only ever replaces the nonempty placeholder literals, so
the empty-`old` corner of `str.replace` is never exercised; `pyReplace` keeps
the text unchanged there.)
-/

/-- Python `str.replace old new` (for the nonempty `old` used by the code). -/
def pyReplace (old new : List Char) : List Char → List Char
  | [] => []
  | c :: cs =>
    if h : old.isPrefixOf (c :: cs) = true ∧ old ≠ [] then
      new ++ pyReplace old new ((c :: cs).drop old.length)
    else
      c :: pyReplace old new cs
termination_by l => l.length
decreasing_by
  · simp only [List.length_drop, List.length_cons]
    have : 0 < old.length := List.length_pos.mpr h.2
    omega
  · simp [Nat.lt_succ_self]

/-- `_render_prompt_template`: fold the substitutions in dict order. -/
def renderPromptTemplate (tpl : List Char) (values : List (List Char × List Char)) :
    List Char :=
  values.foldl (fun acc kv => pyReplace kv.1 kv.2 acc) tpl

/-- The `"{user_prompt}"` placeholder literal. -/
def userPromptPh : List Char := "\x7buser_prompt\x7d".toList

/-- The `"{class_name}"` placeholder literal. -/
def classNamePh : List Char := "\x7bclass_name\x7d".toList

/-- The `"{animation_plan}"` placeholder literal. -/
def animationPlanPh : List Char := "\x7banimation_plan\x7d".toList

/-- The `"{plan_output}"` placeholder literal. -/
def planOutputPh : List Char := "\x7bplan_output\x7d".toList

/-- The plan-stage prompt built by `AnimationPlanner.generate_plan`: render the
template with the user prompt, and if the template never contained the
placeholder, append the labeled raw request as a fallback. -/
def buildPlanPrompt (tpl user : List Char) : List Char :=
  let rendered := renderPromptTemplate tpl [(userPromptPh, user)]
  if hasSub userPromptPh tpl then rendered
  else rendered ++ "\n\nUser Request: ".toList ++ user

/-- The intermediate text of `ManimCodeGenerator.generate_code`'s rendering:
the template after the `class_name`, `animation_plan` and `plan_output`
substitutions, just before the final `user_prompt` substitution. -/
def interCodeTemplate (tpl cls plan : List Char) : List Char :=
  renderPromptTemplate tpl
    [(classNamePh, cls), (animationPlanPh, plan), (planOutputPh, plan)]

/-- The code-stage prompt built by `ManimCodeGenerator.generate_code`: render
all four placeholders in dict order.  There is no fallback append here. -/
def buildCodePrompt (tpl cls plan user : List Char) : List Char :=
  renderPromptTemplate tpl
    [(classNamePh, cls), (animationPlanPh, plan), (planOutputPh, plan),
     (userPromptPh, user)]

theorem buildCodePrompt_eq (tpl cls plan user : List Char) :
    buildCodePrompt tpl cls plan user =
      pyReplace userPromptPh user (interCodeTemplate tpl cls plan) := by
  simp [buildCodePrompt, interCodeTemplate, renderPromptTemplate]

/-- Replacing an occurring pattern makes the replacement text occur. -/
theorem hasSub_pyReplace (old new : List Char) (hold : old ≠ []) :
    ∀ l : List Char, hasSub old l = true → hasSub new (pyReplace old new l) = true := by
  intro l
  induction l using pyReplace.induct old new with
  | case1 => simp [hasSub, List.isEmpty_iff, hold]
  | case2 c cs h ih =>
    intro _
    rw [pyReplace, dif_pos h]
    exact (hasSub_iff new _).mpr ⟨[], pyReplace old new ((c :: cs).drop old.length), by simp⟩
  | case3 c cs h ih =>
    intro hocc
    rw [pyReplace, dif_neg h]
    rcases hasSub_cons_elim hocc with hp | ht
    · exact absurd ⟨hp, hold⟩ h
    · exact hasSub_cons _ _ _ (ih ht)

/-!
## Markdown-fence cleanup (`_clean_code`)

```python
def _clean_code(self, code: str) -> str:
    code = re.sub(r'```python\s*', '', code)
    code = re.sub(r'```\s*', '', code)
    code = code.strip()
    return code
```

`subFence lit` is `re.sub(lit + r'\s*', '', ·)` for a literal `lit`: scan left
to right; at each match remove the literal and the maximal run of whitespace
after it, and resume scanning after the consumed whitespace (for these
patterns the greedy `\s*` never backtracks because nothing follows it).
-/

/-- The backtick character. -/
def btChar : Char := '\x60'

/-- The fence literal of the second pattern in `_clean_code`. -/
def fenceLit : List Char := [btChar, btChar, btChar]

/-- The fence literal of the first pattern in `_clean_code`. -/
def fencePyLit : List Char := fenceLit ++ "python".toList

theorem length_dropWhile_le' (p : Char → Bool) :
    ∀ l : List Char, (l.dropWhile p).length ≤ l.length := by
  intro l
  induction l with
  | nil => simp [List.dropWhile]
  | cons c cs ih =>
    by_cases h : p c = true
    · simp only [List.dropWhile, h]
      exact Nat.le_succ_of_le ih
    · simp [List.dropWhile, h]

/-- `re.sub(lit + r'\s*', '', code)` for a nonempty literal `lit`. -/
def subFence (lit : List Char) : List Char → List Char
  | [] => []
  | c :: cs =>
    if h : lit.isPrefixOf (c :: cs) = true ∧ lit ≠ [] then
      subFence lit (((c :: cs).drop lit.length).dropWhile isSpace)
    else
      c :: subFence lit cs
termination_by l => l.length
decreasing_by
  · have h1 : (((c :: cs).drop lit.length).dropWhile isSpace).length ≤
        ((c :: cs).drop lit.length).length := length_dropWhile_le' _ _
    have h2 : 0 < lit.length := List.length_pos.mpr h.2
    simp only [List.length_drop, List.length_cons] at h1 ⊢
    omega
  · simp [Nat.lt_succ_self]

/-- Python `str.rstrip()`: drop the trailing run of whitespace. -/
def stripTrail : List Char → List Char
  | [] => []
  | c :: cs =>
    match stripTrail cs with
    | [] => if isSpace c then [] else [c]
    | r => c :: r

/-- Python `str.strip()`: drop leading and trailing whitespace. -/
def pyStrip (l : List Char) : List Char :=
  stripTrail (l.dropWhile isSpace)

/-- `ManimCodeGenerator._clean_code`. -/
def cleanCode (code : List Char) : List Char :=
  pyStrip (subFence fenceLit (subFence fencePyLit code))

/-- A substitution whose pattern never occurs is the identity. -/
theorem subFence_of_not_hasSub (lit : List Char) :
    ∀ l : List Char, hasSub lit l = false → subFence lit l = l := by
  intro l
  induction l using subFence.induct lit with
  | case1 => intro _; rw [subFence]
  | case2 c cs h ih =>
    intro hno
    exact absurd (hasSub_cons_false hno).1 (by simp [h.1])
  | case3 c cs h ih =>
    intro hno
    rw [subFence, dif_neg h, ih (hasSub_cons_false hno).2]

/-- Likewise for `pyReplace`. -/
theorem pyReplace_of_not_hasSub (old new : List Char) :
    ∀ l : List Char, hasSub old l = false → pyReplace old new l = l := by
  intro l
  induction l using pyReplace.induct old new with
  | case1 => intro _; rw [pyReplace]
  | case2 c cs h ih =>
    intro hno
    exact absurd (hasSub_cons_false hno).1 (by simp [h.1])
  | case3 c cs h ih =>
    intro hno
    rw [pyReplace, dif_neg h, ih (hasSub_cons_false hno).2]

/-- Being prefixed by the fence literal is starting with three backticks. -/
theorem fence_pre_iff (l : List Char) :
    fenceLit.isPrefixOf l = true ↔ ∃ r, l = btChar :: btChar :: btChar :: r := by
  rw [pre_iff]
  constructor
  · rintro ⟨t, rfl⟩; exact ⟨t, rfl⟩
  · rintro ⟨r, rfl⟩; exact ⟨r, rfl⟩

/-- If the output of the fence substitution starts with a backtick, so did the
input. -/
theorem subFence_head1 :
    ∀ l r, subFence fenceLit l = btChar :: r → ∃ r', l = btChar :: r' := by
  intro l
  induction l using subFence.induct fenceLit with
  | case1 => intro r hr; rw [subFence] at hr; exact absurd hr (by simp)
  | case2 c cs h ih =>
    intro r _
    rcases (fence_pre_iff (c :: cs)).mp h.1 with ⟨t, ht⟩
    exact ⟨btChar :: btChar :: t, ht⟩
  | case3 c cs h ih =>
    intro r hr
    rw [subFence, dif_neg h, List.cons.injEq] at hr
    exact ⟨cs, by rw [hr.1]⟩

/-- If the output of the fence substitution starts with two backticks, so did
the input. -/
theorem subFence_head2 :
    ∀ l r, subFence fenceLit l = btChar :: btChar :: r →
      ∃ r', l = btChar :: btChar :: r' := by
  intro l
  induction l using subFence.induct fenceLit with
  | case1 => intro r hr; rw [subFence] at hr; exact absurd hr (by simp)
  | case2 c cs h ih =>
    intro r _
    rcases (fence_pre_iff (c :: cs)).mp h.1 with ⟨t, ht⟩
    exact ⟨btChar :: t, ht⟩
  | case3 c cs h ih =>
    intro r hr
    rw [subFence, dif_neg h, List.cons.injEq] at hr
    rcases subFence_head1 cs r hr.2 with ⟨r'', hcs⟩
    exact ⟨r'', by rw [hr.1, hcs]⟩

/-- Core invariant of `_clean_code`: after substituting away the fence pattern,
no three consecutive backticks remain anywhere in the text.  Removal cannot
splice kept fragments into a new fence, because a backtick immediately before a
match would itself have started an (earlier, leftmost) match. -/
theorem subFence_no_fence :
    ∀ l : List Char, hasSub fenceLit (subFence fenceLit l) = false := by
  intro l
  induction l using subFence.induct fenceLit with
  | case1 => rw [subFence]; simp [hasSub, fenceLit]
  | case2 c cs h ih => rw [subFence, dif_pos h]; exact ih
  | case3 c cs h ih =>
    rw [subFence, dif_neg h]
    cases hocc : hasSub fenceLit (c :: subFence fenceLit cs) with
    | false => rfl
    | true =>
      exfalso
      rcases hasSub_cons_elim hocc with hp | ht
      · -- a fence at the very head would force one at the head of the input,
        -- contradicting that no match starts there
        rcases (fence_pre_iff _).mp hp with ⟨t, ht⟩
        rw [List.cons.injEq] at ht
        rcases subFence_head2 cs t ht.2 with ⟨r', hcs⟩
        apply h
        refine ⟨(fence_pre_iff _).mpr ⟨r', ?_⟩, by simp [fenceLit]⟩
        rw [ht.1, hcs]
      · rw [ih] at ht; exact Bool.false_ne_true ht

/-- `dropWhile` only removes a prefix. -/
theorem dropWhile_decomp (p : Char → Bool) :
    ∀ l : List Char, ∃ u, l = u ++ l.dropWhile p := by
  intro l
  induction l with
  | nil => exact ⟨[], rfl⟩
  | cons c cs ih =>
    by_cases h : p c = true
    · rcases ih with ⟨u, hu⟩
      exact ⟨c :: u, by simp [List.dropWhile, h]; exact hu⟩
    · exact ⟨[], by simp [List.dropWhile, h]⟩

/-- `stripTrail` only removes a suffix. -/
theorem stripTrail_decomp : ∀ l : List Char, ∃ v, l = stripTrail l ++ v := by
  intro l
  induction l with
  | nil => exact ⟨[], rfl⟩
  | cons c cs ih =>
    rcases ih with ⟨v, hv⟩
    cases hst : stripTrail cs with
    | nil =>
      by_cases h : isSpace c = true
      · exact ⟨c :: cs, by simp [stripTrail, hst, h]⟩
      · refine ⟨cs, ?_⟩
        simp only [stripTrail, hst, h]
        simp
    | cons d ds =>
      refine ⟨v, ?_⟩
      rw [stripTrail, hst]
      rw [hst] at hv
      simp [hv]

/-- A pattern occurring in an inner segment occurs in the whole. -/
theorem hasSub_of_mid {pat m : List Char} (u v : List Char)
    (h : hasSub pat m = true) : hasSub pat (u ++ m ++ v) = true := by
  rcases (hasSub_iff pat m).mp h with ⟨s, t, rfl⟩
  exact (hasSub_iff pat _).mpr ⟨u ++ s, t ++ v, by simp⟩

/-- `pyStrip` cannot create an occurrence of a pattern. -/
theorem hasSub_pyStrip {pat l : List Char}
    (h : hasSub pat (pyStrip l) = true) : hasSub pat l = true := by
  rcases dropWhile_decomp isSpace l with ⟨u, hu⟩
  rcases stripTrail_decomp (l.dropWhile isSpace) with ⟨v, hv⟩
  have : l = u ++ pyStrip l ++ v := by
    rw [pyStrip] at *
    conv_lhs => rw [hu, hv]
    simp
  rw [this]
  exact hasSub_of_mid u v h

/-- An occurrence of an extended pattern yields one of the original pattern. -/
theorem hasSub_of_hasSub_append {p q l : List Char}
    (h : hasSub (p ++ q) l = true) : hasSub p l = true := by
  rcases (hasSub_iff _ l).mp h with ⟨s, t, rfl⟩
  exact (hasSub_iff p _).mpr ⟨s, q ++ t, by simp⟩

/-- The output of `_clean_code` contains no fence marker at all. -/
theorem cleanCode_no_fence (l : List Char) :
    hasSub fenceLit (cleanCode l) = false := by
  cases h : hasSub fenceLit (cleanCode l) with
  | false => rfl
  | true =>
    exfalso
    have := hasSub_pyStrip h
    rw [subFence_no_fence] at this
    exact Bool.false_ne_true this

/-- `dropWhile` is idempotent. -/
theorem dropWhile_idem (p : Char → Bool) :
    ∀ l : List Char, (l.dropWhile p).dropWhile p = l.dropWhile p := by
  intro l
  induction l with
  | nil => simp [List.dropWhile]
  | cons c cs ih =>
    by_cases h : p c = true
    · simp [List.dropWhile, h, ih]
    · simp [List.dropWhile, h]

/-- The head of `dropWhile`'s output fails the predicate. -/
theorem dropWhile_head (p : Char → Bool) (l : List Char) :
    l.dropWhile p = [] ∨ ∃ c cs, l.dropWhile p = c :: cs ∧ p c = false := by
  induction l with
  | nil => exact Or.inl rfl
  | cons c cs ih =>
    by_cases h : p c = true
    · simpa [List.dropWhile, h] using ih
    · exact Or.inr ⟨c, cs, by simp [List.dropWhile, h], by simp [h]⟩

/-- `stripTrail` keeps the head character (or returns nothing). -/
theorem stripTrail_head (c : Char) (cs : List Char) :
    stripTrail (c :: cs) = [] ∨ ∃ r, stripTrail (c :: cs) = c :: r := by
  cases hst : stripTrail cs with
  | nil =>
    by_cases h : isSpace c = true
    · exact Or.inl (by simp [stripTrail, hst, h])
    · exact Or.inr ⟨[], by simp [stripTrail, hst, h]⟩
  | cons d ds => exact Or.inr ⟨d :: ds, by rw [stripTrail, hst]⟩

/-- `stripTrail` is idempotent. -/
theorem stripTrail_idem : ∀ l : List Char, stripTrail (stripTrail l) = stripTrail l := by
  intro l
  induction l with
  | nil => rfl
  | cons c cs ih =>
    cases hst : stripTrail cs with
    | nil =>
      by_cases h : isSpace c = true
      · simp [stripTrail, hst, h]
      · simp [stripTrail, hst, h]
    | cons d ds =>
      rw [stripTrail, hst]
      rw [hst] at ih
      rw [stripTrail, ih]

/-- `str.strip` is idempotent. -/
theorem pyStrip_idem (l : List Char) : pyStrip (pyStrip l) = pyStrip l := by
  rcases dropWhile_head isSpace l with hm | ⟨c, cs, hm, hc⟩
  · simp [pyStrip, hm, stripTrail, List.dropWhile]
  · rcases stripTrail_head c cs with hst | ⟨r, hst⟩
    · simp [pyStrip, hm, hst, stripTrail, List.dropWhile]
    · have h1 : pyStrip l = c :: r := by rw [pyStrip, hm, hst]
      rw [h1, pyStrip, List.dropWhile, hc]
      have h2 : stripTrail (stripTrail (c :: cs)) = stripTrail (c :: cs) := stripTrail_idem _
      rw [hst] at h2
      rw [h2, ← hst, ← hm, ← pyStrip, h1]

/-- Text with no fence marker is only whitespace-trimmed by `_clean_code`. -/
theorem cleanCode_of_no_fence {l : List Char}
    (h : hasSub fenceLit l = false) : cleanCode l = pyStrip l := by
  have hpy : hasSub fencePyLit l = false := by
    cases hq : hasSub fencePyLit l with
    | false => rfl
    | true =>
      have := hasSub_of_hasSub_append (p := fenceLit) (q := "python".toList)
        (l := l) (by simpa [fencePyLit] using hq)
      rw [h] at this
      exact absurd this Bool.false_ne_true
  rw [cleanCode, subFence_of_not_hasSub _ _ hpy, subFence_of_not_hasSub _ _ h]

/-- **C5.** `_clean_code` is idempotent on every input: its output contains no
fence marker and no surrounding whitespace, so a second pass changes nothing. -/
theorem clean_code_idempotent (x : List Char) :
    cleanCode (cleanCode x) = cleanCode x := by
  have hnf := cleanCode_no_fence x
  rw [cleanCode_of_no_fence hnf]
  show pyStrip (pyStrip (subFence fenceLit (subFence fencePyLit x))) = _
  rw [pyStrip_idem]
  rfl

/-!
## Claims C2, C6: request embedding; what `_clean_code` touches
-/

/-- **C2 (amended).** The plan-stage prompt always contains the request text
verbatim: either the planner template contains the `user_prompt` placeholder
and substitution embeds it, or `generate_plan` appends the labeled raw request
as a fallback.  The code-stage prompt contains the request whenever the
`user_prompt` placeholder occurs in the rendered code template (after the
class-name and plan substitutions); `generate_code` has no fallback append, so
a code template without the placeholder yields a prompt without the request. -/
theorem request_text_in_prompts (tplP tplC cls plan user : List Char) :
    hasSub user (buildPlanPrompt tplP user) = true ∧
    (hasSub userPromptPh (interCodeTemplate tplC cls plan) = true →
      hasSub user (buildCodePrompt tplC cls plan user) = true) := by
  constructor
  · rw [buildPlanPrompt]
    by_cases h : hasSub userPromptPh tplP = true
    · simp only [h, if_true]
      have : renderPromptTemplate tplP [(userPromptPh, user)] =
          pyReplace userPromptPh user tplP := by
        simp [renderPromptTemplate]
      rw [this]
      exact hasSub_pyReplace userPromptPh user (by decide) tplP h
    · rw [if_neg (by simpa using h)]
      exact hasSub_append_self _ user
  · intro h
    rw [buildCodePrompt_eq]
    exact hasSub_pyReplace userPromptPh user (by decide) _ h

/-- Witness for `request_text_in_prompts` at concrete templates. -/
theorem request_text_in_prompts_witness :
    hasSub "REQ".toList
        (buildPlanPrompt "Plan this: \x7buser_prompt\x7d".toList "REQ".toList) = true ∧
    hasSub "REQ".toList
        (buildCodePrompt "Code: \x7buser_prompt\x7d".toList "C".toList "P".toList
          "REQ".toList) = true := by
  have hint : interCodeTemplate "Code: \x7buser_prompt\x7d".toList "C".toList "P".toList =
      "Code: \x7buser_prompt\x7d".toList := by
    show renderPromptTemplate _ _ = _
    simp only [renderPromptTemplate, List.foldl]
    rw [pyReplace_of_not_hasSub classNamePh "C".toList _ (by decide)]
    rw [pyReplace_of_not_hasSub animationPlanPh "P".toList _ (by decide)]
    rw [pyReplace_of_not_hasSub planOutputPh "P".toList _ (by decide)]
  exact ⟨(request_text_in_prompts "Plan this: \x7buser_prompt\x7d".toList
      "Code: \x7buser_prompt\x7d".toList "C".toList "P".toList "REQ".toList).1,
    (request_text_in_prompts "Plan this: \x7buser_prompt\x7d".toList
      "Code: \x7buser_prompt\x7d".toList "C".toList "P".toList "REQ".toList).2
      (by rw [hint]; decide)⟩

/-- **C2 (counterexample).** With a code-generation template that does not
contain the request placeholder, the code-stage prompt sent to the model does
not contain the request text at all: `generate_code` performs no fallback
append.  Refutes the claim that both stage prompts always embed the request. -/
theorem code_prompt_can_drop_request :
    hasSub "REQ".toList
      (buildCodePrompt "write manim code".toList "C".toList "P".toList
        "REQ".toList) = false := by
  have h1 : buildCodePrompt "write manim code".toList "C".toList "P".toList
      "REQ".toList = "write manim code".toList := by
    show renderPromptTemplate _ _ = _
    simp only [renderPromptTemplate, List.foldl]
    rw [pyReplace_of_not_hasSub classNamePh "C".toList _ (by decide)]
    rw [pyReplace_of_not_hasSub animationPlanPh "P".toList _ (by decide)]
    rw [pyReplace_of_not_hasSub planOutputPh "P".toList _ (by decide)]
    rw [pyReplace_of_not_hasSub userPromptPh "REQ".toList _ (by decide)]
  rw [h1]
  decide

/-- **C6 (amended).** `_clean_code` removes every fence-marker occurrence
anywhere in the text (not only surrounding ones); on text containing no fence
marker at all it only trims surrounding whitespace. -/
theorem clean_code_only_trims_fence_free_text (l : List Char)
    (h : hasSub fenceLit l = false) : cleanCode l = pyStrip l :=
  cleanCode_of_no_fence h

/-- Witness for `clean_code_only_trims_fence_free_text`. -/
theorem clean_code_only_trims_fence_free_text_witness :
    cleanCode "  x = 1  ".toList = "x = 1".toList :=
  (clean_code_only_trims_fence_free_text "  x = 1  ".toList (by decide)).trans
    (by decide)

/-- The interior-fence input refuting C6 as stated. -/
def interiorFenceInput : List Char := "x = 1\n\x60\x60\x60\ny = 2".toList

/-- **C6 (counterexample).** An input with an interior fence marker and no
surrounding whitespace: the claim says `_clean_code` leaves interior text
(including fence-like backtick sequences inside the body) unchanged, so its
output here would have to be the input itself; in fact `_clean_code` deletes
the interior marker, so the output differs. -/
theorem clean_code_alters_interior :
    pyStrip interiorFenceInput = interiorFenceInput ∧
      cleanCode interiorFenceInput ≠ interiorFenceInput := by
  refine ⟨by decide, fun hEq => ?_⟩
  have h1 := cleanCode_no_fence interiorFenceInput
  rw [hEq] at h1
  have h2 : hasSub fenceLit interiorFenceInput = true := by decide
  rw [h1] at h2
  exact Bool.false_ne_true h2

/-!
## Scene-class rewriting (`_ensure_class_name`)

```python
def _ensure_class_name(self, code: str, expected_class_name: str) -> str:
    pattern = r'class\s+\w+\(Scene\)'
    replacement = f'class {expected_class_name}(Scene)'
    code = re.sub(pattern, replacement, code)
    return code
```

For this pattern the greedy `\s+` and `\w+` never backtrack (`\s`, `\w` and
the literal `(` are pairwise disjoint character classes), so a match at a
position is: the literal `class`, a maximal nonempty whitespace run, a maximal
nonempty word-character run, then the literal `(Scene)`.  `re.sub` takes
leftmost non-overlapping matches.  The scan is written with an explicit fuel
argument (instantiated with the text length, which the scan never exhausts) so
that it stays structurally recursive and computable by `decide`.
-/

/-- The regex class `\w` (ASCII part). -/
def isWordChar (c : Char) : Bool := c.isAlphanum || c = '_'

/-- Length of the regex match `class\s+\w+\(Scene\)` at the head of `l`,
or `none` if there is no match at the head. -/
def classMatchLen (l : List Char) : Option Nat :=
  if "class".toList.isPrefixOf l then
    let rest := l.drop 5
    let sp := (rest.takeWhile isSpace).length
    if sp = 0 then none
    else
      let rest2 := rest.drop sp
      let w := (rest2.takeWhile isWordChar).length
      if w = 0 then none
      else if "(Scene)".toList.isPrefixOf (rest2.drop w) then some (5 + sp + w + 7)
      else none
  else none

/-- The replacement text `f'class {expected_class_name}(Scene)'`. -/
def classRepl (exp : List Char) : List Char :=
  "class ".toList ++ exp ++ "(Scene)".toList

/-- A successful match consumes at least one character. -/
theorem classMatchLen_pos {l : List Char} {n : Nat}
    (h : classMatchLen l = some n) : 0 < n := by
  simp only [classMatchLen] at h
  split_ifs at h
  · rw [Option.some.injEq] at h
    omega

/-- The `re.sub` scan for the scene-class pattern: emit non-matching
characters, replace each leftmost match, resume after it. -/
def ensureClassNameAux (exp : List Char) : Nat → List Char → List Char
  | _, [] => []
  | 0, l => l
  | fuel + 1, c :: cs =>
    match classMatchLen (c :: cs) with
    | some n => classRepl exp ++ ensureClassNameAux exp fuel ((c :: cs).drop n)
    | none => c :: ensureClassNameAux exp fuel cs

/-- `ManimCodeGenerator._ensure_class_name` (fuel instantiated with the text
length, an upper bound on the number of scan steps). -/
def ensureClassName (exp code : List Char) : List Char :=
  ensureClassNameAux exp code.length code

theorem ensureClassNameAux_cons_some {exp : List Char} {fuel : Nat} {c : Char}
    {cs : List Char} {n : Nat} (hm : classMatchLen (c :: cs) = some n) :
    ensureClassNameAux exp (fuel + 1) (c :: cs) =
      classRepl exp ++ ensureClassNameAux exp fuel ((c :: cs).drop n) := by
  simp [ensureClassNameAux, hm]

theorem ensureClassNameAux_cons_none {exp : List Char} {fuel : Nat} {c : Char}
    {cs : List Char} (hm : classMatchLen (c :: cs) = none) :
    ensureClassNameAux exp (fuel + 1) (c :: cs) =
      c :: ensureClassNameAux exp fuel cs := by
  simp [ensureClassNameAux, hm]

/-- Whether the scene-class pattern matches anywhere in the text. -/
def hasClassMatch : List Char → Bool
  | [] => false
  | c :: cs => (classMatchLen (c :: cs)).isSome || hasClassMatch cs

/-- Number of positions at which `pat` occurs in the text. -/
def countOccs (pat : List Char) : List Char → Nat
  | [] => if pat.isEmpty then 1 else 0
  | c :: cs => (if pat.isPrefixOf (c :: cs) = true then 1 else 0) + countOccs pat cs

theorem ensureClassNameAux_spec (exp : List Char) :
    ∀ (fuel : Nat) (l : List Char), l.length ≤ fuel →
      (hasClassMatch l = true →
        hasSub (classRepl exp) (ensureClassNameAux exp fuel l) = true) ∧
      (hasClassMatch l = false → ensureClassNameAux exp fuel l = l) := by
  intro fuel
  induction fuel with
  | zero =>
    intro l hl
    have : l = [] := by cases l <;> simp_all
    subst this
    exact ⟨fun h => by simp [hasClassMatch] at h, fun _ => by simp [ensureClassNameAux]⟩
  | succ fuel ih =>
    intro l hl
    cases l with
    | nil =>
      exact ⟨fun h => by simp [hasClassMatch] at h, fun _ => by simp [ensureClassNameAux]⟩
    | cons c cs =>
      cases hm : classMatchLen (c :: cs) with
      | some n =>
        refine ⟨fun _ => ?_, fun hno => ?_⟩
        · rw [ensureClassNameAux_cons_some hm]
          exact (hasSub_iff _ _).mpr
            ⟨[], ensureClassNameAux exp fuel ((c :: cs).drop n), by simp⟩
        · simp [hasClassMatch, hm] at hno
      | none =>
        have hcs : cs.length ≤ fuel := by simpa using Nat.le_of_succ_le_succ hl
        refine ⟨fun hyes => ?_, fun hno => ?_⟩
        · rw [ensureClassNameAux_cons_none hm]
          have : hasClassMatch cs = true := by simpa [hasClassMatch, hm] using hyes
          exact hasSub_cons _ _ _ ((ih cs hcs).1 this)
        · rw [ensureClassNameAux_cons_none hm]
          have : hasClassMatch cs = false := by simpa [hasClassMatch, hm] using hno
          rw [(ih cs hcs).2 this]

/-- **C3 (amended).** `_ensure_class_name` rewrites every recognized
scene-class declaration to the expected identifier: on input containing at
least one recognized declaration the output contains the expected declaration
`class <expected>(Scene)` (once per recognized declaration, so several when the
input has several); input with no recognized declaration is returned
unchanged. -/
theorem ensure_class_name_rewrites (exp l : List Char) :
    (hasClassMatch l = true →
      hasSub (classRepl exp) (ensureClassName exp l) = true) ∧
    (hasClassMatch l = false → ensureClassName exp l = l) :=
  ensureClassNameAux_spec exp l.length l (Nat.le_refl _)

/-- Witness for `ensure_class_name_rewrites`: a declaration named `Foo` is
rewritten to the expected identifier. -/
theorem ensure_class_name_rewrites_witness :
    hasSub (classRepl "G".toList)
      (ensureClassName "G".toList "class Foo(Scene):\n    pass".toList) = true :=
  (ensure_class_name_rewrites "G".toList "class Foo(Scene):\n    pass".toList).1
    (by decide)

/-- Input with two recognizable scene-class declarations. -/
def twoSceneInput : List Char :=
  "class A(Scene): pass\nclass B(Scene): pass".toList

/-- **C3 (counterexample).** On an input containing two recognizable
scene-class declarations — squarely in the claim's stated domain — the output
of `_ensure_class_name` contains the expected declaration twice, not exactly
once: `re.sub` rewrites all matches. -/
theorem ensure_class_name_not_unique :
    hasClassMatch twoSceneInput = true ∧
    countOccs (classRepl "G".toList) (ensureClassName "G".toList twoSceneInput) = 2 ∧
    countOccs (classRepl "G".toList) (ensureClassName "G".toList twoSceneInput) ≠ 1 := by
  refine ⟨by decide, by decide, by decide⟩

/-!
## The generated identifier (`generate_code`, lines 154-156)

```python
timestamp = datetime.now().strftime("%Y%m%d_%H%M%S")
class_name = f"GeneratedScene_{timestamp}"
```
-/

/-- A `datetime.datetime` value as far as `strftime("%Y%m%d_%H%M%S")` is
concerned: the six second-granularity fields plus the sub-second field that
the format string discards. -/
structure PyDateTime where
  year : Nat
  month : Nat
  day : Nat
  hour : Nat
  minute : Nat
  second : Nat
  microsecond : Nat

/-- `strftime`'s two-digit zero-padded decimal field (`%m`, `%d`, `%H`, `%M`,
`%S`; their values are below 100). -/
def pad2 (n : Nat) : List Char := [Nat.digitChar (n / 10), Nat.digitChar (n % 10)]

/-- `strftime`'s four-digit zero-padded year field `%Y` (below 10000). -/
def pad4 (n : Nat) : List Char :=
  [Nat.digitChar (n / 1000), Nat.digitChar (n / 100 % 10),
   Nat.digitChar (n / 10 % 10), Nat.digitChar (n % 10)]

/-- `datetime.strftime("%Y%m%d_%H%M%S")`. -/
def strftimeTimestamp (t : PyDateTime) : List Char :=
  pad4 t.year ++ pad2 t.month ++ pad2 t.day ++ "_".toList ++
    pad2 t.hour ++ pad2 t.minute ++ pad2 t.second

/-- The identifier `f"GeneratedScene_{timestamp}"` generated for a run. -/
def generatedClassName (t : PyDateTime) : List Char :=
  "GeneratedScene_".toList ++ strftimeTimestamp t

/-- The documented shape `prefix_YYYYMMDD_HHMMSS`: the fixed prefix, eight
digits, an underscore, six digits, nothing else. -/
def matchesIdentPattern (l : List Char) : Bool :=
  "GeneratedScene_".toList.isPrefixOf l &&
    (let r := l.drop 15
     (r.length == 15) && (r.take 8).all Char.isDigit &&
       ((r.drop 8).take 1 == "_".toList) && (r.drop 9).all Char.isDigit)

theorem digitChar_digit : ∀ n, n < 10 → (Nat.digitChar n).isDigit = true := by
  decide

/-- **C4.** For every clock reading with in-range calendar fields, the
generated identifier matches the fixed pattern `GeneratedScene_YYYYMMDD_HHMMSS`,
and two readings within the same clock second (equal down to the second,
regardless of sub-second time) generate identical identifiers. -/
theorem generated_identifier_format (t t' : PyDateTime)
    (hy : t.year < 10000) (hmo : t.month < 100) (hd : t.day < 100)
    (hh : t.hour < 100) (hmi : t.minute < 100) (hs : t.second < 100)
    (hsec : t.year = t'.year ∧ t.month = t'.month ∧ t.day = t'.day ∧
      t.hour = t'.hour ∧ t.minute = t'.minute ∧ t.second = t'.second) :
    matchesIdentPattern (generatedClassName t) = true ∧
    generatedClassName t = generatedClassName t' := by
  constructor
  · have d01 := digitChar_digit (t.year / 1000) (by omega)
    have d02 := digitChar_digit (t.year / 100 % 10) (by omega)
    have d03 := digitChar_digit (t.year / 10 % 10) (by omega)
    have d04 := digitChar_digit (t.year % 10) (by omega)
    have d05 := digitChar_digit (t.month / 10) (by omega)
    have d06 := digitChar_digit (t.month % 10) (by omega)
    have d07 := digitChar_digit (t.day / 10) (by omega)
    have d08 := digitChar_digit (t.day % 10) (by omega)
    have d09 := digitChar_digit (t.hour / 10) (by omega)
    have d10 := digitChar_digit (t.hour % 10) (by omega)
    have d11 := digitChar_digit (t.minute / 10) (by omega)
    have d12 := digitChar_digit (t.minute % 10) (by omega)
    have d13 := digitChar_digit (t.second / 10) (by omega)
    have d14 := digitChar_digit (t.second % 10) (by omega)
    have hdrop : ∀ r : List Char, ("GeneratedScene_".toList ++ r).drop 15 = r := by
      intro r
      rw [show (15 : Nat) = ("GeneratedScene_".toList).length from by decide]
      exact List.drop_left _ _
    rw [matchesIdentPattern, generatedClassName]
    rw [Bool.and_eq_true, hdrop]
    refine ⟨pre_append _ _, ?_⟩
    simp only [strftimeTimestamp, pad4, pad2]
    simp [d01, d02, d03, d04, d05, d06, d07, d08, d09, d10, d11, d12, d13, d14]
  · obtain ⟨e1, e2, e3, e4, e5, e6⟩ := hsec
    rw [generatedClassName, generatedClassName, strftimeTimestamp, strftimeTimestamp,
      e1, e2, e3, e4, e5, e6]

/-- Witness for `generated_identifier_format`: two datetimes in the same
second, differing in microseconds. -/
theorem generated_identifier_format_witness :
    matchesIdentPattern (generatedClassName ⟨2025, 11, 30, 23, 59, 58, 999999⟩) = true ∧
    generatedClassName ⟨2025, 11, 30, 23, 59, 58, 999999⟩ =
      generatedClassName ⟨2025, 11, 30, 23, 59, 58, 0⟩ :=
  generated_identifier_format ⟨2025, 11, 30, 23, 59, 58, 999999⟩
    ⟨2025, 11, 30, 23, 59, 58, 0⟩ (by decide) (by decide) (by decide) (by decide)
    (by decide) (by decide) ⟨rfl, rfl, rfl, rfl, rfl, rfl⟩

/-!
## Prompt-config loading and the containment check
(`_load_prompt_config`, `_get_prompt_template`)

```python
def _load_prompt_config() -> dict:
    if not PROMPT_CONFIG_PATH.exists():
        return DEFAULT_PROMPT_CONFIG.copy()
    config = json.loads(...)            # JSONDecodeError -> ValueError (not modeled)
    merged_config = DEFAULT_PROMPT_CONFIG.copy()
    merged_config.update({k: v for k, v in config.items() if isinstance(v, str)})
    return merged_config

def _get_prompt_template(config_key: str) -> str:
    config = _load_prompt_config()
    selected_file = config.get(config_key)
    if not isinstance(selected_file, str) or not selected_file.strip():
        raise ValueError(...)
    prompt_path = (PROMPTS_DIR / selected_file).resolve()
    prompts_dir_resolved = PROMPTS_DIR.resolve()
    try:
        prompt_path.relative_to(prompts_dir_resolved)
    except ValueError as exc:
        raise ValueError(...containment...) from exc
    if not prompt_path.exists():
        raise FileNotFoundError(...)
    return prompt_path.read_text(encoding="utf-8")
```

Paths are modeled as lists of components (each a `List Char`).  `pathlib`'s
construction drops empty and `"."` components; `resolve()` makes the path
absolute against the working directory and folds away `".."` (symlinks are not
modeled); `relative_to` succeeds exactly when the resolved prompts directory
is a component-wise prefix of the resolved path.  The filesystem is a lookup
function from resolved paths to file contents, universally quantified in the
theorems, so that a result independent of it shows the file is never read.
-/

/-- A JSON value as far as the merge in `_load_prompt_config` is concerned:
a string, or anything else (dropped by the `isinstance(v, str)` filter). -/
inductive JVal where
  | str : String → JVal
  | nonstr : JVal
deriving DecidableEq

/-- `DEFAULT_PROMPT_CONFIG`. -/
def defaultPromptConfig : String → Option String := fun k =>
  if k = "planner_prompt_file" then some "planner_system_prompt.txt"
  else if k = "code_gen_prompt_file" then some "code_gen_system_prompt.txt"
  else none

/-- `_load_prompt_config` as the lookup it produces: `none` models an absent
config file (fall back to the defaults wholesale); with a config present, a
string-valued entry wins over the default, and any non-string entry is
filtered out by the merge so the default shows through. -/
def loadPromptConfig (cfg : Option (String → Option JVal)) : String → Option String :=
  match cfg with
  | none => defaultPromptConfig
  | some c => fun k =>
    match c k with
    | some (JVal.str s) => some s
    | _ => defaultPromptConfig k

/-- Split a raw path string on `/` separators. -/
def splitSlash (l : List Char) : List (List Char) :=
  l.foldr
    (fun c acc =>
      if c = '/' then [] :: acc
      else
        match acc with
        | [] => [[c]]
        | a :: rest => (c :: a) :: rest)
    [[]]

/-- `pathlib` path construction from a string: split on `/`, drop empty and
`"."` components. -/
def parseComponents (s : String) : List (List Char) :=
  (splitSlash s.toList).filter (fun c => !c.isEmpty && !(c == ['.']))

/-- Whether a configured filename is an absolute path (so that
`PROMPTS_DIR / selected_file` discards the `prompts` base). -/
def isAbsStr (s : String) : Bool :=
  match s.toList with
  | '/' :: _ => true
  | _ => false

/-- `Path.resolve()`'s `..` folding over components (at the root, `..` stays
at the root). -/
def normalize (comps : List (List Char)) : List (List Char) :=
  comps.foldl (fun acc c => if c = ['.', '.'] then acc.dropLast else acc ++ [c]) []

/-- The single component of `PROMPTS_DIR`. -/
def promptsComp : List Char := "prompts".toList

/-- `(PROMPTS_DIR / selected_file).resolve()` against the working directory. -/
def resolveUnderPrompts (cwd : List (List Char)) (sel : String) : List (List Char) :=
  if isAbsStr sel then normalize (parseComponents sel)
  else normalize (cwd ++ promptsComp :: parseComponents sel)

/-- `PROMPTS_DIR.resolve()`. -/
def promptsDirResolved (cwd : List (List Char)) : List (List Char) :=
  normalize (cwd ++ [promptsComp])

/-- `not selected_file.strip()`: the configured value is empty or whitespace
only. -/
def isWhitespaceOnlyStr (s : String) : Bool := s.toList.all isSpace

/-- The failure modes of `_get_prompt_template`. -/
inductive PromptError where
  | configError : String → PromptError
  | containment : String → PromptError
  | notFound : String → PromptError
deriving DecidableEq

/-- `_get_prompt_template`: select the filename for the key, validate it,
resolve it under the prompts directory, enforce containment, then (and only
then) read the file. -/
def getPromptTemplate (cfg : Option (String → Option JVal)) (cwd : List (List Char))
    (fs : List (List Char) → Option String) (key : String) :
    Except PromptError String :=
  match loadPromptConfig cfg key with
  | none => .error (.configError key)
  | some sel =>
    if isWhitespaceOnlyStr sel then .error (.configError key)
    else
      let pp := resolveUnderPrompts cwd sel
      if (promptsDirResolved cwd).isPrefixOf pp then
        match fs pp with
        | some txt => .ok txt
        | none => .error (.notFound key)
      else .error (.containment key)

/-- **C1.** Whenever the configured filename resolves outside the prompts
directory, `_get_prompt_template` fails with the containment error — for every
filesystem, i.e. without consulting the file's contents at all. -/
theorem prompt_template_containment (cfg : Option (String → Option JVal))
    (cwd : List (List Char)) (fs : List (List Char) → Option String)
    (key sel : String)
    (hsel : loadPromptConfig cfg key = some sel)
    (hne : isWhitespaceOnlyStr sel = false)
    (hout : (promptsDirResolved cwd).isPrefixOf (resolveUnderPrompts cwd sel) = false) :
    getPromptTemplate cfg cwd fs key = .error (.containment key) := by
  simp [getPromptTemplate, hsel, hne, hout]

/-- A working directory for the concrete path scenarios. -/
def cwdW : List (List Char) := ["home".toList, "user".toList]

/-- A filesystem that would happily serve any path — the containment check
must fail before it is consulted. -/
def fsW : List (List Char) → Option String := fun _ => some "TOP SECRET"

/-- A config selecting a traversal path for the planner template. -/
def cfgTraversal : String → Option JVal := fun k =>
  if k = "planner_prompt_file" then some (JVal.str "../secret.txt") else none

/-- Witness for `prompt_template_containment`: `../secret.txt` resolves to
`/home/user/secret.txt`, outside `/home/user/prompts`, and loading fails with
the containment error even though the filesystem has contents there. -/
theorem prompt_template_containment_witness :
    getPromptTemplate (some cfgTraversal) cwdW fsW "planner_prompt_file" =
      .error (.containment "planner_prompt_file") :=
  prompt_template_containment (some cfgTraversal) cwdW fsW "planner_prompt_file"
    "../secret.txt" rfl (by decide) (by decide)

/-- **C7 (amended).** A selected value that is absent, empty, or whitespace
only fails with a configuration error; but a non-string configured value never
reaches `_get_prompt_template` at all — the merge in `_load_prompt_config`
filters it out, silently falling back to the built-in default filename. -/
theorem prompt_config_value_validation
    (cfg : Option (String → Option JVal)) (cwd : List (List Char))
    (fs : List (List Char) → Option String) (key : String) :
    (∀ sel, loadPromptConfig cfg key = some sel → isWhitespaceOnlyStr sel = true →
      getPromptTemplate cfg cwd fs key = .error (.configError key)) ∧
    (loadPromptConfig cfg key = none →
      getPromptTemplate cfg cwd fs key = .error (.configError key)) ∧
    (∀ c, cfg = some c → c key = some JVal.nonstr →
      loadPromptConfig cfg key = defaultPromptConfig key) := by
  refine ⟨?_, ?_, ?_⟩
  · intro sel hsel hws
    simp [getPromptTemplate, hsel, hws]
  · intro hnone
    simp [getPromptTemplate, hnone]
  · rintro c rfl hc
    simp [loadPromptConfig, hc]

/-- A config assigning a non-string JSON value to the planner key. -/
def cfgNonStr : String → Option JVal := fun k =>
  if k = "planner_prompt_file" then some JVal.nonstr else none

/-- A config assigning a whitespace-only string to the planner key. -/
def cfgWs : String → Option JVal := fun k =>
  if k = "planner_prompt_file" then some (JVal.str "   ") else none

/-- A filesystem holding only the default planner template under the resolved
prompts directory. -/
def fsDefault : List (List Char) → Option String := fun p =>
  if p = ["home".toList, "user".toList, "prompts".toList,
      "planner_system_prompt.txt".toList]
  then some "DEFAULT PLANNER TEMPLATE" else none

/-- Witness for `prompt_config_value_validation`: the whitespace-only value
errors, and the non-string value falls back to the default filename. -/
theorem prompt_config_value_validation_witness :
    getPromptTemplate (some cfgWs) cwdW fsW "planner_prompt_file" =
      .error (.configError "planner_prompt_file") ∧
    loadPromptConfig (some cfgNonStr) "planner_prompt_file" =
      defaultPromptConfig "planner_prompt_file" :=
  ⟨(prompt_config_value_validation (some cfgWs) cwdW fsW "planner_prompt_file").1
      "   " rfl (by decide),
   (prompt_config_value_validation (some cfgNonStr) cwdW fsW
      "planner_prompt_file").2.2 cfgNonStr rfl rfl⟩

/-- **C7 (counterexample).** With the planner key configured to a non-string
JSON value and the default planner file present on disk, template loading does
not fail with a configuration error: it silently substitutes the built-in
default file and returns its contents. -/
theorem config_nonstring_silently_defaults :
    getPromptTemplate (some cfgNonStr) cwdW fsDefault "planner_prompt_file" =
      .ok "DEFAULT PLANNER TEMPLATE" := by
  rfl

/-!
## Artifact discovery after rendering (`AnimationRenderer`)

The subprocess call itself is external; its observable outcome (exit code and
captured streams) is a `ProcResult`.  The filesystem at discovery time is a
`RenderFS`: an existence predicate for the candidate paths, whether the media
directory exists, and the `.mp4` files (with modification times) that
`rglob("*.mp4")` would enumerate beneath it.
-/

/-- Exit status and captured streams of the completed `manim` subprocess. -/
structure ProcResult where
  returncode : Int
  stdout : String
  stderr : String

/-- The filesystem as seen by `_find_latest_video`. -/
structure RenderFS where
  pathExists : String → Bool
  mediaDirExists : Bool
  mp4Files : List (String × Nat)

/-- The fixed quality-tier candidate paths checked for the identifier. -/
def candidatePaths (cls : String) : List String :=
  ["media/videos/generated_animations/480p15/" ++ cls ++ ".mp4",
   "media/videos/generated_animations/720p30/" ++ cls ++ ".mp4",
   "media/videos/generated_animations/1080p60/" ++ cls ++ ".mp4"]

/-- Python's `max(files, key=mtime)`: keep the current maximum, replace only
on strictly greater, so the first of equally-new files wins. -/
def maxByMtime (f : String × Nat) (rest : List (String × Nat)) : String × Nat :=
  rest.foldl (fun acc x => if acc.2 < x.2 then x else acc) f

/-- `AnimationRenderer._find_latest_video`. -/
def findLatestVideo (fs : RenderFS) (cls : String) : Option String :=
  match (candidatePaths cls).find? fs.pathExists with
  | some p => some p
  | none =>
    if fs.mediaDirExists then
      match fs.mp4Files with
      | [] => none
      | f :: rest => some (maxByMtime f rest).1
    else none

/-- `AnimationRenderer.render` after the subprocess completed (the timeout and
missing-binary exception paths happen before any `ProcResult` exists):
returns `(success, video path or error text, combined log)`. -/
def render (fs : RenderFS) (proc : ProcResult) (cls : String) :
    Bool × String × String :=
  let log := proc.stdout ++ "\n" ++ proc.stderr
  if proc.returncode ≠ 0 then (false, "Rendering failed: " ++ proc.stderr, log)
  else
    match findLatestVideo fs cls with
    | some p =>
      if fs.pathExists p then (true, p, log)
      else (false, "Video file not found after rendering", log)
    | none => (false, "Video file not found after rendering", log)

/-- **C8.** On zero exit, the renderer first takes the first existing
quality-tier candidate path; if none exists it falls back to the recursive
media-directory scan and picks the most recently modified `.mp4`; if that also
finds nothing, it fails with the artifact-not-found message despite the zero
exit code. -/
theorem renderer_artifact_search (fs : RenderFS) (proc : ProcResult) (cls : String)
    (h0 : proc.returncode = 0) :
    (∀ p, (candidatePaths cls).find? fs.pathExists = some p →
      render fs proc cls = (true, p, proc.stdout ++ "\n" ++ proc.stderr)) ∧
    ((candidatePaths cls).find? fs.pathExists = none → fs.mediaDirExists = true →
      ∀ f rest, fs.mp4Files = f :: rest → fs.pathExists (maxByMtime f rest).1 = true →
        render fs proc cls =
          (true, (maxByMtime f rest).1, proc.stdout ++ "\n" ++ proc.stderr)) ∧
    ((candidatePaths cls).find? fs.pathExists = none →
      fs.mediaDirExists = false ∨ fs.mp4Files = [] →
      render fs proc cls = (false, "Video file not found after rendering",
        proc.stdout ++ "\n" ++ proc.stderr)) := by
  refine ⟨?_, ?_, ?_⟩
  · intro p hp
    have hex : fs.pathExists p = true := List.find?_some hp
    simp [render, h0, findLatestVideo, hp, hex]
  · intro hc hm f rest hf hex
    simp [render, h0, findLatestVideo, hc, hm, hf, hex]
  · rintro hc (hm | hm)
    · simp [render, h0, findLatestVideo, hc, hm]
    · simp [render, h0, findLatestVideo, hc, hm]

/-- A filesystem with no artifact anywhere. -/
def fsEmpty : RenderFS :=
  { pathExists := fun _ => false, mediaDirExists := false, mp4Files := [] }

/-- A zero-exit process result. -/
def procZero : ProcResult := { returncode := 0, stdout := "out", stderr := "err" }

/-- Witness for `renderer_artifact_search`: zero exit code but no artifact on
disk yields the artifact-not-found failure. -/
theorem renderer_artifact_search_witness :
    render fsEmpty procZero "GeneratedScene_20250101_000000" =
      (false, "Video file not found after rendering", "out\nerr") :=
  (renderer_artifact_search fsEmpty procZero "GeneratedScene_20250101_000000"
    rfl).2.2 rfl (Or.inl rfl)

/-!
## The pipeline driver (`generate_animation`)

The three stages are modeled by their observable behaviors: a stage either
returns its value or raises (an `Except.error` carrying the exception text).
The driver's `try`/`except` is the match on those behaviors; by construction
the function is total, which is the shallow-embedding form of "never lets an
exception escape".  Costs are exact rationals (the claims about them concern
only the zero case, unaffected by floating-point rounding).
-/

/-- Per-call token usage reported by the model (`usage_metadata`). -/
structure StageTokens where
  input_tokens : Nat
  output_tokens : Nat

/-- The `token_usage` sub-record of the driver's result. -/
structure TokenUsageRec where
  total_input_tokens : Nat
  total_output_tokens : Nat
  plan_input_tokens : Nat
  plan_output_tokens : Nat
  code_input_tokens : Nat
  code_output_tokens : Nat
  input_cost_usd : Rat
  output_cost_usd : Rat
  total_cost_usd : Rat

/-- The driver's result record. -/
structure PipelineResult where
  success : Bool
  plan : String
  code : String
  class_name : String
  video_path : String
  error : String
  logs : String
  token_usage : TokenUsageRec

/-- The `result` dict as initialized at the top of `generate_animation`. -/
def initTokenUsage : TokenUsageRec := ⟨0, 0, 0, 0, 0, 0, 0, 0, 0⟩

/-- The initial result record. -/
def initResult : PipelineResult := ⟨false, "", "", "", "", "", "", initTokenUsage⟩

/-- The wrapper the top-level `except` block puts around an exception. -/
def wrapPipelineError (e : String) : String :=
  "Error in animation generation pipeline: " ++ e

/-- `generate_animation`: run plan, code, render strictly in sequence,
mutating the result record after each step; any stage exception short-circuits
to the `except` block, which records the wrapped message on whatever partial
record exists at that point. -/
def generateAnimation (planStage : Except String (String × StageTokens))
    (codeStage : Except String (String × String × StageTokens))
    (renderStage : Except String (Bool × String × String)) : PipelineResult :=
  match planStage with
  | .error e => { initResult with error := wrapPipelineError e }
  | .ok (plan, pt) =>
    let r1 : PipelineResult := { initResult with
      plan := plan,
      token_usage := { initTokenUsage with
        plan_input_tokens := pt.input_tokens,
        plan_output_tokens := pt.output_tokens } }
    match codeStage with
    | .error e => { r1 with error := wrapPipelineError e }
    | .ok (code, cls, ct) =>
      let totalIn := pt.input_tokens + ct.input_tokens
      let totalOut := pt.output_tokens + ct.output_tokens
      -- $0.5 per 1M input tokens, $3 per 1M output tokens
      let inCost : Rat := ((totalIn : Rat) / 1000000) * 0.5
      let outCost : Rat := ((totalOut : Rat) / 1000000) * 3
      let r2 : PipelineResult := { r1 with
        code := code, class_name := cls,
        token_usage := { r1.token_usage with
          code_input_tokens := ct.input_tokens,
          code_output_tokens := ct.output_tokens,
          total_input_tokens := totalIn,
          total_output_tokens := totalOut,
          input_cost_usd := inCost,
          output_cost_usd := outCost,
          total_cost_usd := inCost + outCost } }
      match renderStage with
      | .error e => { r2 with error := wrapPipelineError e }
      | .ok (succ, vOrE, logs) =>
        let r3 : PipelineResult := { r2 with logs := logs }
        if succ then { r3 with success := true, video_path := vOrE }
        else { r3 with error := vOrE }

/-- **C9.** For every behavior of the three stages, the driver returns the
result record of the same fixed shape (the function is total: stage exceptions
are converted into a failure record, never propagated) and it preserves the
partial results produced before the failure point: a plan-stage failure leaves
the pristine record with only the wrapped error set; a code-stage failure
keeps the plan; a render-stage failure keeps plan, code, and identifier; a
completed render records its log and either the video path or the error. -/
theorem pipeline_driver_failure_shape (ps : Except String (String × StageTokens))
    (cs : Except String (String × String × StageTokens))
    (rs : Except String (Bool × String × String)) :
    (∀ e, ps = .error e →
      generateAnimation ps cs rs = { initResult with error := wrapPipelineError e }) ∧
    (∀ plan pt e, ps = .ok (plan, pt) → cs = .error e →
      (generateAnimation ps cs rs).success = false ∧
      (generateAnimation ps cs rs).plan = plan ∧
      (generateAnimation ps cs rs).code = "" ∧
      (generateAnimation ps cs rs).video_path = "" ∧
      (generateAnimation ps cs rs).error = wrapPipelineError e) ∧
    (∀ plan pt code cls ct e, ps = .ok (plan, pt) → cs = .ok (code, cls, ct) →
      rs = .error e →
      (generateAnimation ps cs rs).success = false ∧
      (generateAnimation ps cs rs).plan = plan ∧
      (generateAnimation ps cs rs).code = code ∧
      (generateAnimation ps cs rs).class_name = cls ∧
      (generateAnimation ps cs rs).error = wrapPipelineError e) ∧
    (∀ plan pt code cls ct succ v lg, ps = .ok (plan, pt) →
      cs = .ok (code, cls, ct) → rs = .ok (succ, v, lg) →
      (generateAnimation ps cs rs).plan = plan ∧
      (generateAnimation ps cs rs).code = code ∧
      (generateAnimation ps cs rs).logs = lg ∧
      (succ = true → (generateAnimation ps cs rs).success = true ∧
        (generateAnimation ps cs rs).video_path = v) ∧
      (succ = false → (generateAnimation ps cs rs).success = false ∧
        (generateAnimation ps cs rs).error = v)) := by
  refine ⟨?_, ?_, ?_, ?_⟩
  · rintro e rfl
    rfl
  · rintro plan pt e rfl rfl
    refine ⟨rfl, rfl, rfl, rfl, rfl⟩
  · rintro plan pt code cls ct e rfl rfl rfl
    refine ⟨rfl, rfl, rfl, rfl, rfl⟩
  · rintro plan pt code cls ct succ v lg rfl rfl rfl
    refine ⟨?_, ?_, ?_, ?_, ?_⟩
    · cases succ <;> rfl
    · cases succ <;> rfl
    · cases succ <;> rfl
    · rintro rfl; exact ⟨rfl, rfl⟩
    · rintro rfl; exact ⟨rfl, rfl⟩

/-- Witness for `pipeline_driver_failure_shape`: the code stage throws after a
successful plan stage; the record keeps the plan, has empty code, and carries
the wrapped error. -/
theorem pipeline_driver_failure_shape_witness :
    (generateAnimation (.ok ("the plan", ⟨10, 20⟩)) (.error "boom")
      (.ok (true, "v.mp4", "log"))).success = false ∧
    (generateAnimation (.ok ("the plan", ⟨10, 20⟩)) (.error "boom")
      (.ok (true, "v.mp4", "log"))).plan = "the plan" ∧
    (generateAnimation (.ok ("the plan", ⟨10, 20⟩)) (.error "boom")
      (.ok (true, "v.mp4", "log"))).code = "" ∧
    (generateAnimation (.ok ("the plan", ⟨10, 20⟩)) (.error "boom")
      (.ok (true, "v.mp4", "log"))).video_path = "" ∧
    (generateAnimation (.ok ("the plan", ⟨10, 20⟩)) (.error "boom")
      (.ok (true, "v.mp4", "log"))).error = wrapPipelineError "boom" :=
  (pipeline_driver_failure_shape (.ok ("the plan", ⟨10, 20⟩)) (.error "boom")
    (.ok (true, "v.mp4", "log"))).2.1 "the plan" ⟨10, 20⟩ "boom" rfl rfl

/-- **C10.** Totals and cost estimates are accumulated only after both model
calls succeed: when the plan stage succeeds but the code stage throws, the
total token counts and all three cost fields of the returned record stay zero
(while the per-stage plan counts, recorded before the failure, are kept). -/
theorem token_totals_require_both_stages
    (ps : Except String (String × StageTokens))
    (cs : Except String (String × String × StageTokens))
    (rs : Except String (Bool × String × String))
    (plan : String) (pt : StageTokens) (e : String)
    (hp : ps = .ok (plan, pt)) (hc : cs = .error e) :
    (generateAnimation ps cs rs).token_usage.total_input_tokens = 0 ∧
    (generateAnimation ps cs rs).token_usage.total_output_tokens = 0 ∧
    (generateAnimation ps cs rs).token_usage.input_cost_usd = 0 ∧
    (generateAnimation ps cs rs).token_usage.output_cost_usd = 0 ∧
    (generateAnimation ps cs rs).token_usage.total_cost_usd = 0 ∧
    (generateAnimation ps cs rs).token_usage.plan_input_tokens = pt.input_tokens ∧
    (generateAnimation ps cs rs).token_usage.plan_output_tokens = pt.output_tokens := by
  subst hp hc
  exact ⟨rfl, rfl, rfl, rfl, rfl, rfl, rfl⟩

/-- Witness for `token_totals_require_both_stages` at a concrete failing run. -/
theorem token_totals_require_both_stages_witness :
    (generateAnimation (.ok ("P", ⟨10, 20⟩)) (.error "boom")
      (.ok (true, "v", "lg"))).token_usage.total_input_tokens = 0 ∧
    (generateAnimation (.ok ("P", ⟨10, 20⟩)) (.error "boom")
      (.ok (true, "v", "lg"))).token_usage.total_output_tokens = 0 ∧
    (generateAnimation (.ok ("P", ⟨10, 20⟩)) (.error "boom")
      (.ok (true, "v", "lg"))).token_usage.input_cost_usd = 0 ∧
    (generateAnimation (.ok ("P", ⟨10, 20⟩)) (.error "boom")
      (.ok (true, "v", "lg"))).token_usage.output_cost_usd = 0 ∧
    (generateAnimation (.ok ("P", ⟨10, 20⟩)) (.error "boom")
      (.ok (true, "v", "lg"))).token_usage.total_cost_usd = 0 ∧
    (generateAnimation (.ok ("P", ⟨10, 20⟩)) (.error "boom")
      (.ok (true, "v", "lg"))).token_usage.plan_input_tokens = (10 : Nat) ∧
    (generateAnimation (.ok ("P", ⟨10, 20⟩)) (.error "boom")
      (.ok (true, "v", "lg"))).token_usage.plan_output_tokens = (20 : Nat) :=
  token_totals_require_both_stages (.ok ("P", ⟨10, 20⟩)) (.error "boom")
    (.ok (true, "v", "lg")) "P" ⟨10, 20⟩ "boom" rfl rfl

end PromptManim
